import Mathlib

/-!
Editor (`src/app/ui/editor/editor.h`).

A shallow embedding of the parts of `app::Editor` that the header defines:
the `EditorFlags` enumeration, the `AutoScroll` and `ZoomBehavior`
enumerations, the data members of the class and its inline accessors and
setters.  Member functions that the header only declares (their bodies live
in `editor.cpp`) are modelled from the specification and marked as such.
-/

namespace app

/-! ## Enumerations -/

/-- The scoped enumeration `AutoScroll`. -/
inductive AutoScroll where
  | MouseDir
  | ScrollDir
  deriving DecidableEq, Repr

/-- The scoped enumeration `Editor::ZoomBehavior`. -/
inductive ZoomBehavior where
  | CENTER
  | MOUSE
  deriving DecidableEq, Repr

/-- Values of the unscoped enumeration `Editor::EditorFlags`, as bit patterns. -/
abbrev EditorFlags := Nat

def kNoneFlag : EditorFlags := 0
def kShowGrid : EditorFlags := 1
def kShowMask : EditorFlags := 2
def kShowOnionskin : EditorFlags := 4
def kShowOutside : EditorFlags := 8
def kShowDecorators : EditorFlags := 16
def kDefaultEditorFlags : EditorFlags :=
  (kShowGrid ||| kShowMask ||| kShowOnionskin ||| kShowOutside ||| kShowDecorators)

/-- The five single-flag enumerators, in declaration order. -/
def visualAidFlags : List EditorFlags :=
  [kShowGrid, kShowMask, kShowOnionskin, kShowOutside, kShowDecorators]

/-- The expression `flags & ~bit` on 32-bit `int` operands with a non-negative
result: the complement of `bit` is its exclusive-or with the all-ones word. -/
def clearFlag (flags bit : EditorFlags) : EditorFlags :=
  flags &&& ((2 ^ 32 - 1) ^^^ bit)

/-- The bitwise OR of the flags selected by the five booleans (a subset of the
five visual aids, one boolean per enumerator in declaration order). -/
def flagsOfSubset (grid mask onionskin outside decorators : Bool) : EditorFlags :=
  (if grid then kShowGrid else kNoneFlag) |||
  (if mask then kShowMask else kNoneFlag) |||
  (if onionskin then kShowOnionskin else kNoneFlag) |||
  (if outside then kShowOutside else kNoneFlag) |||
  (if decorators then kShowDecorators else kNoneFlag)

/-- The value of the parameter `flags` in
`Editor(Document* document, EditorFlags flags = kDefaultEditorFlags)`:
the argument when one is passed, the default argument otherwise. -/
def constructorFlags (flags : Option EditorFlags) : EditorFlags :=
  match flags with
  | some f => f
  | none => kDefaultEditorFlags

/-! ## Effects and the data members -/

/-- Identity of an interaction state (the object an `EditorStatePtr` points to). -/
abbrev StateId := Nat

/-- Identity of a registered `EditorObserver`. -/
abbrev ObserverId := Nat

/-- Calls a member function makes on its collaborators, recorded in order. -/
inductive Effect where
  /-- the leave notification of an interaction state -/
  | leaveState (s : StateId)
  /-- the enter notification of an interaction state -/
  | enterState (s : StateId)
  /-- a notification delivered to a registered observer -/
  | notifyObserver (o : ObserverId)
  /-- a repaint request handed to the toolkit -/
  | repaint
  deriving DecidableEq, Repr

/-- The data members of `Editor` that the accessors of the header read and
write.  `Zoom` stands for `render::Zoom`, whose declaration (`render/zoom.h`)
is not part of the source; `EditorStatesHistory` is kept as the list of its
elements, top first; a null `EditorStatePtr` is `none`.  The field `emitted`
is the record of the effects performed so far. -/
structure Editor (Zoom : Type) where
  m_statesHistory : List StateId
  m_state : Option StateId
  m_decorator : Option Nat
  m_document : Option Nat
  m_sprite : Option Nat
  m_layer : Option Nat
  m_frame : Int
  m_zoom : Zoom
  m_offset_x : Int
  m_offset_y : Int
  m_observers : List ObserverId
  m_docView : Option Nat
  m_flags : EditorFlags
  emitted : List Effect

namespace Editor

variable {Zoom : Type}

/-! ## Inline member functions of the header -/

/-- `EditorStatePtr getState() { return m_state; }` -/
def getState (e : Editor Zoom) : Option StateId := e.m_state

/-- `EditorFlags editorFlags() const { return m_flags; }` -/
def editorFlags (e : Editor Zoom) : EditorFlags := e.m_flags

/-- `void setEditorFlags(EditorFlags flags) { m_flags = flags; }` -/
def setEditorFlags (e : Editor Zoom) (flags : EditorFlags) : Editor Zoom :=
  { e with m_flags := flags }

/-- `const render::Zoom& zoom() const { return m_zoom; }` -/
def zoom (e : Editor Zoom) : Zoom := e.m_zoom

/-- `int offsetX() const { return m_offset_x; }` -/
def offsetX (e : Editor Zoom) : Int := e.m_offset_x

/-- `int offsetY() const { return m_offset_y; }` -/
def offsetY (e : Editor Zoom) : Int := e.m_offset_y

/-- `void setZoom(render::Zoom zoom) { m_zoom = zoom; }` -/
def setZoom (e : Editor Zoom) (zoom : Zoom) : Editor Zoom :=
  { e with m_zoom := zoom }

/-- `void setOffsetX(int x) { m_offset_x = x; }` -/
def setOffsetX (e : Editor Zoom) (x : Int) : Editor Zoom :=
  { e with m_offset_x := x }

/-- `void setOffsetY(int y) { m_offset_y = y; }` -/
def setOffsetY (e : Editor Zoom) (y : Int) : Editor Zoom :=
  { e with m_offset_y := y }

/-- The effects performed between two snapshots of the same editor. -/
def emittedSince (before after : Editor Zoom) : List Effect :=
  after.emitted.drop before.emitted.length

/-- Every observer registered in the first snapshot was notified, and a
repaint was requested, between the two snapshots. -/
def NotifiesAndRepaints (before after : Editor Zoom) : Prop :=
  (∀ o ∈ before.m_observers, Effect.notifyObserver o ∈ emittedSince before after) ∧
  Effect.repaint ∈ emittedSince before after

/-! ## The state stack -/

/-- Modelled from the spec: the body of `Editor::setState` (with
`Editor::setStateInternal`) is in `editor.cpp`, which is not part of the
source.  Section 4.4, `push(newState)`: "suspends the current top (calls its
leave-notification), appends newState, calls its enter-notification; prior top
remains below for later return"; section 3: "the top is always the currently
active state". -/
def setState (e : Editor Zoom) (newState : StateId) : Editor Zoom :=
  { e with
    emitted :=
      e.emitted ++
        (match e.m_statesHistory with
         | top :: _ => [Effect.leaveState top]
         | [] => []) ++
        [Effect.enterState newState]
    m_statesHistory := newState :: e.m_statesHistory
    m_state := some newState }

/-- Modelled from the spec: the body of `Editor::backToPreviousState` is in
`editor.cpp`, which is not part of the source.  Section 4.4, `popToPrevious()`:
"removes the top (leave-notification) and re-activates the one below (re-enter
notification); undefined/no-op if at the permanent bottom"; "popping the
bottom state is a programming error (no-op defensively, never throws)".  The
re-enter notification is the enter notification of section 4.5 (`onEnter()`),
delivered to the state below. -/
def backToPreviousState (e : Editor Zoom) : Editor Zoom :=
  match e.m_statesHistory with
  | top :: below :: rest =>
    { e with
      emitted := e.emitted ++ [Effect.leaveState top, Effect.enterState below]
      m_statesHistory := below :: rest
      m_state := (below :: rest).head? }
  | _ => e

/-- Modelled from the spec: the constructor's body is in `editor.cpp`, which is
not part of the source.  Section 3: "the state stack and its default state are
created with the controller"; "an idle/default state is the permanent bottom".
A freshly constructed editor has exactly that state in its history, and it is
the current state. -/
def Fresh (e : Editor Zoom) : Prop :=
  e.m_statesHistory.length = 1 ∧ e.m_state = e.m_statesHistory.head?

instance (e : Editor Zoom) : Decidable (Fresh e) :=
  inferInstanceAs (Decidable (_ ∧ _))

/-- The editors reachable from a freshly constructed one through `setState`,
`backToPreviousState` and the inline setters of the header. -/
inductive Reachable : Editor Zoom → Prop where
  | fresh (e : Editor Zoom) : Fresh e → Reachable e
  | setState (e : Editor Zoom) (newState : StateId) :
      Reachable e → Reachable (e.setState newState)
  | backToPreviousState (e : Editor Zoom) :
      Reachable e → Reachable e.backToPreviousState
  | setZoom (e : Editor Zoom) (zoom : Zoom) : Reachable e → Reachable (e.setZoom zoom)
  | setOffsetX (e : Editor Zoom) (x : Int) : Reachable e → Reachable (e.setOffsetX x)
  | setOffsetY (e : Editor Zoom) (y : Int) : Reachable e → Reachable (e.setOffsetY y)
  | setEditorFlags (e : Editor Zoom) (flags : EditorFlags) :
      Reachable e → Reachable (e.setEditorFlags flags)

end Editor

/-! ## Autoscroll -/

/-- Modelled from the spec: `gfx::Point` is only forward-declared
(`gfx/fwd.h`); section 3 calls it "an integer 2D vector". -/
structure Point where
  x : Int
  y : Int
  deriving DecidableEq, Repr

/-- Component-wise sum, `gfx::Point::operator+`. -/
def Point.add (a b : Point) : Point := { x := a.x + b.x, y := a.y + b.y }

/-- Modelled from the spec: `gfx::Rect` is only forward-declared
(`gfx/fwd.h`); the viewport bounds are an origin and a size in pixels. -/
structure Rect where
  x : Int
  y : Int
  w : Int
  h : Int
  deriving DecidableEq, Repr

/-- The point lies on one of the pixels the rectangle covers. -/
def Rect.contains (rc : Rect) (pt : Point) : Prop :=
  rc.x ≤ pt.x ∧ pt.x < rc.x + rc.w ∧ rc.y ≤ pt.y ∧ pt.y < rc.y + rc.h

instance (rc : Rect) (pt : Point) : Decidable (rc.contains pt) :=
  inferInstanceAs (Decidable (_ ∧ _))

/-- Modelled from the spec: section 4.3, "how far outside the pointer is",
along one axis: the signed difference between the coordinate and the nearest
coordinate among the pixels `lo .. lo + len - 1` of the viewport. -/
def outsideBy (lo len v : Int) : Int :=
  v - max lo (min v (lo + len - 1))

/-- Modelled from the spec: the body of `Editor::autoScroll` is in
`editor.cpp`, which is not part of the source.  Section 4.3: "when a drag
pointer position lies outside the viewport bounds, returns an incremental
scroll vector proportional to how far outside the pointer is, along the
viewport edge(s) crossed; MouseDir biases the scroll to follow the pointer's
direction of travel, ScrollDir biases toward continuing the last scroll
direction. Returns a zero vector when the pointer is inside bounds. This
function is pure (no mutation)".  The factor of proportionality, the
pointer's direction of travel and the last scroll direction are not fixed by
the spec and are arguments here. -/
def autoScroll (vp : Rect) (speed : Int) (travel lastScroll : Point)
    (pointerScreenPos : Point) (dir : AutoScroll) : Point :=
  let bias : Point :=
    match dir with
    | AutoScroll.MouseDir => travel
    | AutoScroll.ScrollDir => lastScroll
  { x := speed * (outsideBy vp.x vp.w pointerScreenPos.x).natAbs * Int.sign bias.x
    y := speed * (outsideBy vp.y vp.h pointerScreenPos.y).natAbs * Int.sign bias.y }

/-! ## Sample data -/

/-- An editor showing a document at zoom level `1`, offset `(0, 0)`, with one
registered observer, the default flags and a single state in its history. -/
def sampleEditor : Editor Nat :=
  { m_statesHistory := [0]
    m_state := some 0
    m_decorator := none
    m_document := some 1
    m_sprite := some 1
    m_layer := some 1
    m_frame := 0
    m_zoom := 1
    m_offset_x := 0
    m_offset_y := 0
    m_observers := [7]
    m_docView := none
    m_flags := kDefaultEditorFlags
    emitted := [] }

/-- A viewport of 800 by 600 pixels at the origin. -/
def sampleViewport : Rect := { x := 0, y := 0, w := 800, h := 600 }

instance {Zoom : Type} (before after : Editor Zoom) :
    Decidable (Editor.NotifiesAndRepaints before after) :=
  inferInstanceAs (Decidable (_ ∧ _))

/-! ## Auxiliary facts -/

theorem Editor.emittedSince_self_eq {Zoom : Type} (e e' : Editor Zoom)
    (h : e'.emitted = e.emitted) : Editor.emittedSince e e' = [] := by
  simp [Editor.emittedSince, h]

/-- In a reachable editor the history is a non-empty list whose head is the
current state. -/
theorem Editor.Reachable.top_is_current {Zoom : Type} {e : Editor Zoom}
    (h : Editor.Reachable e) :
    ∃ top rest, e.m_statesHistory = top :: rest ∧ e.m_state = some top := by
  induction h with
  | fresh e hf =>
    obtain ⟨hlen, hstate⟩ := hf
    match hh : e.m_statesHistory, hlen with
    | [top], _ => exact ⟨top, [], rfl, by simp [hstate, hh]⟩
  | setState e newState _ _ => exact ⟨newState, e.m_statesHistory, rfl, rfl⟩
  | backToPreviousState e _ ih =>
    obtain ⟨top, rest, hh, hs⟩ := ih
    cases rest with
    | nil => exact ⟨top, [], by simp [Editor.backToPreviousState, hh], by
        simp [Editor.backToPreviousState, hh, hs]⟩
    | cons below rest =>
      exact ⟨below, rest, by simp [Editor.backToPreviousState, hh], by
        simp [Editor.backToPreviousState, hh]⟩
  | setZoom e zoom _ ih => exact ih
  | setOffsetX e x _ ih => exact ih
  | setOffsetY e y _ ih => exact ih
  | setEditorFlags e flags _ ih => exact ih

theorem outsideBy_eq_zero {lo len v : Int} (h₁ : lo ≤ v) (h₂ : v < lo + len) :
    outsideBy lo len v = 0 := by
  unfold outsideBy
  rw [min_eq_left (by omega), max_eq_right h₁]
  omega

/-! ## The flag set -/

/-- C7: the default flag set `kDefaultEditorFlags`, the value the constructor's
`flags` parameter takes when the argument is omitted, has each of the five
visual aids enabled and no other bit set: it is their bitwise union, the
number 31, and its bit `i` is set exactly when `2 ^ i` is one of the five
flags. -/
theorem kDefaultEditorFlags_is_union_of_visual_aids :
    constructorFlags none = kDefaultEditorFlags ∧
    kDefaultEditorFlags =
      kShowGrid ||| kShowMask ||| kShowOnionskin ||| kShowOutside ||| kShowDecorators ∧
    kDefaultEditorFlags = 31 ∧
    kDefaultEditorFlags &&& kShowGrid = kShowGrid ∧
    kDefaultEditorFlags &&& kShowMask = kShowMask ∧
    kDefaultEditorFlags &&& kShowOnionskin = kShowOnionskin ∧
    kDefaultEditorFlags &&& kShowOutside = kShowOutside ∧
    kDefaultEditorFlags &&& kShowDecorators = kShowDecorators ∧
    ∀ i : Nat, kDefaultEditorFlags.testBit i = true ↔ 2 ^ i ∈ visualAidFlags := by
  refine ⟨rfl, rfl, by decide, by decide, by decide, by decide, by decide, by decide, ?_⟩
  intro i
  rcases Nat.lt_or_ge i 5 with hi | hi
  · interval_cases i <;> decide
  · have hpow : 32 ≤ 2 ^ i :=
      (show (32 : Nat) = 2 ^ 5 by norm_num) ▸ Nat.pow_le_pow_right (by norm_num) hi
    have hdef : kDefaultEditorFlags = 31 := by decide
    have hbit : kDefaultEditorFlags.testBit i = false :=
      Nat.testBit_lt_two_pow (by rw [hdef]; omega)
    constructor
    · intro h
      simp [hbit] at h
    · intro h
      have small : ∀ b ∈ visualAidFlags, b < 32 := by decide
      exact absurd (small _ h) (Nat.not_lt.mpr hpow)

/-- C8: toggling `kShowGrid` off leaves all other bits unchanged: after
`setEditorFlags(f & ~kShowGrid)`, `editorFlags()` has `kShowGrid` off and has
each of `kShowMask`, `kShowOnionskin`, `kShowOutside` and `kShowDecorators`
exactly as in `f`; starting from `kDefaultEditorFlags` the result is 30. -/
theorem setEditorFlags_clear_kShowGrid {Zoom : Type} (e : Editor Zoom) (f : EditorFlags) :
    (e.setEditorFlags (clearFlag f kShowGrid)).editorFlags &&& kShowGrid = kNoneFlag ∧
    (e.setEditorFlags (clearFlag f kShowGrid)).editorFlags &&& kShowMask = f &&& kShowMask ∧
    (e.setEditorFlags (clearFlag f kShowGrid)).editorFlags &&& kShowOnionskin =
      f &&& kShowOnionskin ∧
    (e.setEditorFlags (clearFlag f kShowGrid)).editorFlags &&& kShowOutside =
      f &&& kShowOutside ∧
    (e.setEditorFlags (clearFlag f kShowGrid)).editorFlags &&& kShowDecorators =
      f &&& kShowDecorators ∧
    (e.setEditorFlags (clearFlag kDefaultEditorFlags kShowGrid)).editorFlags = 30 := by
  have key : ∀ b : Nat, (e.setEditorFlags (clearFlag f kShowGrid)).editorFlags &&& b =
      f &&& (((2 ^ 32 - 1) ^^^ kShowGrid) &&& b) := by
    intro b
    simp only [Editor.setEditorFlags, Editor.editorFlags, clearFlag, Nat.and_assoc]
  refine ⟨?_, ?_, ?_, ?_, ?_, ?_⟩
  rotate_left 5
  · show clearFlag kDefaultEditorFlags kShowGrid = 30
    decide
  · rw [key, show ((2 ^ 32 - 1) ^^^ kShowGrid) &&& kShowGrid = 0 by decide]
    simp [kNoneFlag]
  · rw [key, show ((2 ^ 32 - 1) ^^^ kShowGrid) &&& kShowMask = kShowMask by decide]
  · rw [key, show ((2 ^ 32 - 1) ^^^ kShowGrid) &&& kShowOnionskin = kShowOnionskin by decide]
  · rw [key, show ((2 ^ 32 - 1) ^^^ kShowGrid) &&& kShowOutside = kShowOutside by decide]
  · rw [key, show ((2 ^ 32 - 1) ^^^ kShowGrid) &&& kShowDecorators = kShowDecorators by decide]

/-- C10: the five flag constants are non-zero, pairwise disjoint single bits;
the map sending a subset of the five flags to the bitwise OR of its members is
injective, sends the empty subset to `kNoneFlag` (0) and the full set to
`kDefaultEditorFlags`, and its image is exactly the values 0..31. -/
theorem flagsOfSubset_injective_onto_0_31 :
    (∀ b ∈ visualAidFlags, b ≠ 0 ∧ ∃ i < 5, b = 2 ^ i) ∧
    visualAidFlags.Pairwise (fun a b => a &&& b = 0) ∧
    (∀ g m o s d g' m' o' s' d' : Bool,
      flagsOfSubset g m o s d = flagsOfSubset g' m' o' s' d' →
        g = g' ∧ m = m' ∧ o = o' ∧ s = s' ∧ d = d') ∧
    flagsOfSubset false false false false false = kNoneFlag ∧
    kNoneFlag = 0 ∧
    flagsOfSubset true true true true true = kDefaultEditorFlags ∧
    (∀ v : Nat, v < 32 ↔ ∃ g m o s d : Bool, flagsOfSubset g m o s d = v) := by
  refine ⟨by decide, by decide, by decide, by decide, rfl, by decide, ?_⟩
  intro v
  constructor
  · intro hv
    have all : ∀ w : Fin 32, ∃ g m o s d : Bool, flagsOfSubset g m o s d = w.val := by
      decide
    exact all ⟨v, hv⟩
  · rintro ⟨g, m, o, s, d, rfl⟩
    have bound : ∀ g m o s d : Bool, flagsOfSubset g m o s d < 32 := by decide
    exact bound g m o s d

/-! ## The inline setters -/

/-- C6: `setZoom(z)` sets the raw zoom and adjusts nothing else: afterwards
`zoom()` returns `z`, while `offsetX()`, `offsetY()`, `editorFlags()`, the
current state and the states history are what they were before the call. -/
theorem setZoom_sets_only_zoom {Zoom : Type} (e : Editor Zoom) (z : Zoom) :
    (e.setZoom z).zoom = z ∧
    (e.setZoom z).offsetX = e.offsetX ∧
    (e.setZoom z).offsetY = e.offsetY ∧
    (e.setZoom z).editorFlags = e.editorFlags ∧
    (e.setZoom z).getState = e.getState ∧
    (e.setZoom z).m_statesHistory = e.m_statesHistory :=
  ⟨rfl, rfl, rfl, rfl, rfl, rfl⟩

/-- C3: in every editor reachable through `setState` and
`backToPreviousState` (and the inline setters) the states history holds at
least one state, the current state returned by `getState()` is not null and is
the top element of the history; and `backToPreviousState()` called when a
single state is on the stack changes nothing: the stack, the current state
and every other member are as before. -/
theorem statesHistory_never_empty_top_is_current {Zoom : Type} (e : Editor Zoom)
    (h : Editor.Reachable e) :
    1 ≤ e.m_statesHistory.length ∧
    e.getState ≠ none ∧
    e.m_statesHistory.head? = e.getState ∧
    1 ≤ e.backToPreviousState.m_statesHistory.length ∧
    (e.m_statesHistory.length = 1 → e.backToPreviousState = e) := by
  obtain ⟨top, rest, hh, hs⟩ := h.top_is_current
  obtain ⟨top', rest', hh', _⟩ := (Editor.Reachable.backToPreviousState e h).top_is_current
  refine ⟨by simp [hh], by simp [Editor.getState, hs], by simp [Editor.getState, hs, hh],
    by simp [hh'], ?_⟩
  intro hlen
  cases rest with
  | nil => simp [Editor.backToPreviousState, hh]
  | cons below rest => simp [hh] at hlen

/-- C3, at the sample editor, whose history holds a single state. -/
theorem statesHistory_never_empty_top_is_current_witness :
    Editor.Reachable sampleEditor ∧
    (1 ≤ sampleEditor.m_statesHistory.length ∧
    sampleEditor.getState ≠ none ∧
    sampleEditor.m_statesHistory.head? = sampleEditor.getState ∧
    1 ≤ sampleEditor.backToPreviousState.m_statesHistory.length ∧
    (sampleEditor.m_statesHistory.length = 1 →
      sampleEditor.backToPreviousState = sampleEditor)) :=
  ⟨Editor.Reachable.fresh _ (by decide),
    statesHistory_never_empty_top_is_current sampleEditor
      (Editor.Reachable.fresh _ (by decide))⟩

/-! ## Autoscroll -/

/-- C5: for every pointer position within the viewport bounds and for each of
the two modes `MouseDir` and `ScrollDir`, the autoscroll computation returns
the zero vector, and a scroll offset to which the caller adds the returned
vector is unchanged. -/
theorem autoScroll_zero_inside_viewport (vp : Rect) (speed : Int)
    (travel lastScroll pointerScreenPos scroll : Point) (dir : AutoScroll)
    (h : vp.contains pointerScreenPos) :
    autoScroll vp speed travel lastScroll pointerScreenPos dir = { x := 0, y := 0 } ∧
    scroll.add (autoScroll vp speed travel lastScroll pointerScreenPos dir) = scroll := by
  obtain ⟨hx₁, hx₂, hy₁, hy₂⟩ := h
  have hzero : autoScroll vp speed travel lastScroll pointerScreenPos dir =
      { x := 0, y := 0 } := by
    simp [autoScroll, outsideBy_eq_zero hx₁ hx₂, outsideBy_eq_zero hy₁ hy₂]
  refine ⟨hzero, ?_⟩
  rw [hzero]
  simp [Point.add]

/-- C5, at the centre of an 800 by 600 viewport, in mode `ScrollDir`. -/
theorem autoScroll_zero_inside_viewport_witness :
    sampleViewport.contains { x := 400, y := 300 } ∧
    (autoScroll sampleViewport 4 { x := 3, y := -2 } { x := -1, y := 1 }
        { x := 400, y := 300 } AutoScroll.ScrollDir = { x := 0, y := 0 } ∧
    Point.add { x := 16, y := 32 }
        (autoScroll sampleViewport 4 { x := 3, y := -2 } { x := -1, y := 1 }
          { x := 400, y := 300 } AutoScroll.ScrollDir) = { x := 16, y := 32 }) :=
  ⟨by decide,
    autoScroll_zero_inside_viewport sampleViewport 4 { x := 3, y := -2 } { x := -1, y := 1 }
      { x := 400, y := 300 } { x := 16, y := 32 } AutoScroll.ScrollDir (by decide)⟩

end app
